import Mathlib

/-!
Shallow embedding of `src/main.py` (class `CornellTechElectiveChecker`) from
the `technical_elective_finder` repository, together with theorems settling
the frozen claims about its specification.

Python strings are modelled as Lean `String` (lists of characters); Python
`int` values as `Int`/`Nat`; Python `dict`s as association lists looked up by
structural key equality; Python `set[str]` values as lists with membership
semantics (duplication and iteration order never affect any boolean computed
from them here); Python `None`-or-value results as `Option`.
-/

set_option autoImplicit false

/-- Character class `[A-Z]` of the Python regexes in `main.py` (both regexes
are applied to `.upper()`-cased text). `Char.isUpper` is exactly
`'A' ≤ c ∧ c ≤ 'Z'` on ASCII. -/
def isRegexUpper (c : Char) : Bool := c.isUpper

/-- Character class `\d` of the Python regexes, restricted to ASCII digits
(the inputs handled by this repository are ASCII catalog text). -/
def isRegexDigit (c : Char) : Bool := c.isDigit

/-- Character class `\s` of the Python regexes: ASCII whitespace
`[ \t\n\v\f\r]` (the Unicode extension is irrelevant to catalog text). -/
def isPySpace (c : Char) : Bool :=
  c == ' ' || c == '\t' || c == '\n' || c == '\x0b' || c == '\x0c' || c == '\r'

/-- Python `str.upper()` on a character list: ASCII lowercase letters are
upper-cased, all other characters kept (matching `Char.toUpper`). -/
def pyUpperChars (cs : List Char) : List Char := cs.map Char.toUpper

/-- Python `str.upper()` on a string. -/
def pyUpperS (s : String) : String := String.mk (pyUpperChars s.data)

/-- One pass of `re.findall(r'([A-Z]+)\s*(\d+)', text)` (main.py line 117),
scanning character by character. Because the pattern starts with `[A-Z]+` and
the characters accepted by `[A-Z]`, `\s` and `\d` are pairwise disjoint,
backtracking never rescues a failed attempt: a match attempt starting at an
uppercase letter succeeds iff at least one digit follows the maximal
letter run and the maximal whitespace run after it, and greedy matching takes
the maximal digit run. On success the scanner resumes after the match; on
failure it advances one character, exactly as `re.findall` does. The `fuel`
argument only makes the recursion structural: every step consumes at least
one character while spending one fuel, so with the entry fuel `cs.length`
(see `findallCourseCodes`) the fuel-exhaustion branch is unreachable
(`scanAux_fuel` below proves fuel irrelevance above this bound). -/
def scanAux : Nat → List Char → List (String × String)
  | 0, _ => []
  | _ + 1, [] => []
  | fuel + 1, c :: rest =>
    if isRegexUpper c then
      let letters := c :: rest.takeWhile isRegexUpper
      let afterWs := (rest.dropWhile isRegexUpper).dropWhile isPySpace
      let digits := afterWs.takeWhile isRegexDigit
      if digits.isEmpty then scanAux fuel rest
      else (String.mk letters, String.mk digits) :: scanAux fuel (afterWs.dropWhile isRegexDigit)
    else scanAux fuel rest

/-- `re.findall(r'([A-Z]+)\s*(\d+)', text.upper())`: the list of
`(subject, number)` capture pairs, in scan order (main.py lines 117–118). -/
def findallCourseCodes (text : String) : List (String × String) :=
  scanAux text.data.length (pyUpperChars text.data)

/-- Embedding of `CornellTechElectiveChecker._parse_course_code` (main.py
lines 29–42): `re.match(r'([A-Z]+)\s*(\d+)', course_str.upper())`, anchored at
the start of the string; `None` on failure (the Python `(None, None)` pair). -/
def parse_course_code (course_str : String) : Option (String × String) :=
  match pyUpperChars course_str.data with
  | [] => none
  | c :: rest =>
    if isRegexUpper c then
      let letters := c :: rest.takeWhile isRegexUpper
      let afterWs := (rest.dropWhile isRegexUpper).dropWhile isPySpace
      let digits := afterWs.takeWhile isRegexDigit
      if digits.isEmpty then none
      else some (String.mk letters, String.mk digits)
    else none

/-- One raw course record as consumed by `_extract_prerequisites` (main.py
lines 88–123): only the two prerequisite-text fields are read there. A field
absent from the Python dict is modelled as `""`, matching
`course_data.get('catalogPrereq', '')` / `.get('catalogPrereqCoreq', '')`. -/
structure CourseData where
  catalogPrereq : String
  catalogPrereqCoreq : String
  deriving DecidableEq

/-- First-match association-list lookup (the model of Python dict lookup used
for both the remote catalog and the instance cache). -/
def lookupA {α : Type} [DecidableEq α] {β : Type} (k : α) : List (α × β) → Option β
  | [] => none
  | (k', v) :: rest => if k = k' then some v else lookupA k rest

/-- Course data retrievable from the Cornell classes API, keyed by
`(roster, subject, catalogNbr)`: `_fetch_course_data` (main.py lines 44–86)
searches the API by `(roster, subject)` and filters on `catalogNbr`, and every
failure path (course not found, network or HTTP error — the bare `except`
catches everything) returns `None`. -/
abbrev Api := List ((String × String × String) × CourseData)

/-- Instance cache `self.cache` of `CornellTechElectiveChecker`. The Python
key is the string `f"{roster}_{subject}_{course_num}"`; it is modelled as the
triple itself, which is its content for the underscore-free components the
program uses. Found-as-`None` results are cached too (main.py line 81). -/
abbrev Cache := List ((String × String × String) × Option CourseData)

/-- Embedding of `CornellTechElectiveChecker._fetch_course_data` (main.py
lines 44–86) against a fixed `api`: consult the cache, otherwise look the
course up and cache the result (including a `None` result). The returned pair
is (Python return value, `self.cache` after the call). One deviation, dead
under a fixed `api`: Python does not cache the `None` produced by a raised
exception, which matters only when a retry could answer differently. -/
def _fetch_course_data (api : Api) (cache : Cache) (subject course_num roster : String) :
    Option CourseData × Cache :=
  match lookupA (roster, subject, course_num) cache with
  | some v => (v, cache)
  | none =>
    let r := lookupA (roster, subject, course_num) api
    (r, ((roster, subject, course_num), r) :: cache)

/-- Decimal value of an ASCII digit list (the numeral semantics of Python
`int()` on the two-digit roster slices this program uses). -/
def pyDigitsToNat (cs : List Char) : Nat :=
  cs.foldl (fun n c => 10 * n + (c.toNat - 48)) 0

/-- Python `int(s)` on a string of ASCII digits, `none` where `int()` would
raise `ValueError` (empty or non-numeral input). -/
def pyToNat? (s : String) : Option Nat :=
  if !s.data.isEmpty && s.data.all Char.isDigit then some (pyDigitsToNat s.data)
  else none

/-- Python `s.startswith(pre)`. -/
def pyStartsWith (s pre : String) : Bool := pre.data.isPrefixOf s.data

/-- Embedding of `CornellTechElectiveChecker._extract_prerequisites` (main.py
lines 88–123): pick `catalogPrereq` for Fall 2025 or later rosters, else
`catalogPrereqCoreq` (`year = int(roster[2:4])`, `is_fall =
roster.startswith('FA')`); empty text gives the empty set; otherwise every
regex capture pair is formatted as `f"{subject} {number}"`. The Python result
is a `set`; it is modelled as the match-order list, whose membership and
`any`-semantics coincide with the set's. On a roster whose `[2:4]` slice is
not a numeral Python would raise from `int()` while this model selects the
legacy field — no theorem below instantiates such a roster. -/
def _extract_prerequisites (course_data : CourseData) (roster : String) : List String :=
  let year := (pyToNat? ((roster.drop 2).take 2)).getD 0
  let is_fall := pyStartsWith roster "FA"
  let prereq_text :=
    if 25 < year || (year == 25 && is_fall) then course_data.catalogPrereq
    else course_data.catalogPrereqCoreq
  if prereq_text.data.isEmpty then []
  else (findallCourseCodes prereq_text).map (fun p => p.1 ++ " " ++ p.2)

/-- The `for prereq in prerequisites: if self.is_tech_elective(...): return
True` loop of `is_tech_elective` (main.py lines 171–175), with the instance
cache threaded through the calls and the early return short-circuiting. -/
def loopAnyC (f : String → Cache → Bool × Cache) : List String → Cache → Bool × Cache
  | [], cache => (false, cache)
  | p :: rest, cache =>
    match f p cache with
    | (true, cache') => (true, cache')
    | (false, cache') => loopAnyC f rest cache'

/-- Embedding of `CornellTechElectiveChecker.is_tech_elective` (main.py lines
125–175), returning (result, `self.cache` after the call). Faithful order of
checks: depth guard (`depth > max_depth`), case-insensitive whitelist
membership (`course.upper() in (p.upper() for p in acceptable_prerequisites)`),
cycle guard (`course in visited`), parse, fetch, then the recursive loop over
the extracted prerequisites. Python mutates `visited` and passes
`visited.copy()` to each recursive call, so each child sees exactly
`visited ∪ {course}` and siblings are independent: `course :: visited` passed
to every child is the same semantics. The `fuel` argument only makes the
recursion structural; it is unreachable at `0`: the public entry point
`is_tech_elective` supplies `(max_depth - depth).toNat + 1`, each recursive
call at `depth + 1` receives one less, and whenever that reaches `0` the
callee has `depth > max_depth` and returns at the depth guard before the
fuel match. -/
def isTEcF (api : Api) (wl : List String) (fuel : Nat) (course roster : String)
    (visited : List String) (depth max_depth : Int) (cache : Cache) : Bool × Cache :=
  if depth > max_depth then (false, cache)
  else if pyUpperS course ∈ wl.map pyUpperS then (true, cache)
  else if course ∈ visited then (false, cache)
  else
    match parse_course_code course with
    | none => (false, cache)
    | some (subject, number) =>
      match _fetch_course_data api cache subject number roster with
      | (none, cache') => (false, cache')
      | (some course_data, cache') =>
        match fuel with
        | 0 => (false, cache')
        | fuel' + 1 =>
          loopAnyC
            (fun p c =>
              isTEcF api wl fuel' p roster (course :: visited) (depth + 1) max_depth c)
            (_extract_prerequisites course_data roster) cache'

/-- Cache-free reference semantics of `is_tech_elective`: identical control
flow to `isTEcF`, with every fetch answered directly by the catalog `api`.
`isTEcF_pure` below proves that `isTEcF` run with any cache whose entries
agree with `api` computes exactly this function. -/
def isTEF (api : Api) (wl : List String) (fuel : Nat) (course roster : String)
    (visited : List String) (depth max_depth : Int) : Bool :=
  if depth > max_depth then false
  else if pyUpperS course ∈ wl.map pyUpperS then true
  else if course ∈ visited then false
  else
    match parse_course_code course with
    | none => false
    | some (subject, number) =>
      match lookupA (roster, subject, number) api with
      | none => false
      | some course_data =>
        match fuel with
        | 0 => false
        | fuel' + 1 =>
          (_extract_prerequisites course_data roster).any
            (fun p => isTEF api wl fuel' p roster (course :: visited) (depth + 1) max_depth)

/-- Fuel sufficient for `isTEcF` to simulate the Python recursion from
`depth` with bound `max_depth` (see the comment on `isTEcF`). -/
def fuelFor (depth max_depth : Int) : Nat := (max_depth - depth).toNat + 1

/-- Public entry point, `checker.is_tech_elective(course, roster, visited,
depth, max_depth)` for a checker with whitelist `wl`, catalog `api` and
instance cache `cache`. Python defaults: `roster="FA25"`, `visited=None`
(fresh set), `depth=0`, `max_depth=5`; a fresh checker has `cache = []`. -/
def is_tech_elective (api : Api) (wl : List String) (course roster : String)
    (visited : List String) (depth max_depth : Int) (cache : Cache) : Bool × Cache :=
  isTEcF api wl (fuelFor depth max_depth) course roster visited depth max_depth cache

/-- The result-accumulating loop of `check_multiple_courses` (main.py lines
190–196): `results[course] = self.is_tech_elective(course, roster)` for each
input course in order, with the instance cache persisting across iterations.
Returns (the `results` dict as an insertion-ordered association list, the
final cache). -/
def batchFlags (api : Api) (wl : List String) :
    List String → String → Cache → List (String × Bool) × Cache
  | [], _, cache => ([], cache)
  | course :: rest, roster, cache =>
    let r := is_tech_elective api wl course roster [] 0 5 cache
    let rs := batchFlags api wl rest roster r.2
    ((course, r.1) :: rs.1, rs.2)

/-- Embedding of `CornellTechElectiveChecker.check_multiple_courses` (main.py
lines 177–204): the loop fills the local `results` dict (and mutates the
instance cache), but the function body ends without a `return` statement, so
the caller receives Python `None` — modelled as `(none, final cache)`, the
computed flags being discarded exactly as in the source. -/
def check_multiple_courses (api : Api) (wl : List String) (courses : List String)
    (roster : String) (cache : Cache) : Option (List (String × Bool)) × Cache :=
  let r := batchFlags api wl courses roster cache
  (none, r.2)

/-- Embedding of `CornellTechElectiveChecker.__init__` (main.py lines 8–19):
`self.acceptable_prerequisites = set(acceptable_prerequisites)`. The stored
set is modelled as the given list (membership-equivalent); no entry is
inspected or validated, and construction cannot fail. -/
def initChecker (acceptable_prerequisites : List String) : List String :=
  acceptable_prerequisites

/-- The per-course qualification flags of one batch run, expressed against
the cache-free reference semantics `isTEF` with the Python defaults
`roster="FA25"`-style arguments supplied by `check_multiple_courses`
(`visited = ∅`, `depth = 0`, `max_depth = 5`). -/
def pureFlags (api : Api) (wl : List String) (courses : List String) (roster : String) :
    List (String × Bool) :=
  courses.map (fun course => (course, isTEF api wl (fuelFor 0 5) course roster [] 0 5))

/-- Coherence of an instance cache with the catalog: every cached answer is
the answer the catalog lookup would give. The empty cache of a fresh checker
is coherent, and every fetch preserves coherence (`fetch_ok`). -/
def CacheOk (api : Api) (cache : Cache) : Prop :=
  ∀ k v, lookupA k cache = some v → v = lookupA k api

/-- Dropping a matching run never lengthens a list. -/
theorem length_dropWhile_le {α : Type} (p : α → Bool) :
    ∀ l : List α, (l.dropWhile p).length ≤ l.length := by
  intro l
  induction l with
  | nil => simp
  | cons a l ih =>
    cases hpa : p a with
    | true => simp [List.dropWhile_cons, hpa]; exact Nat.le_succ_of_le ih
    | false => simp [List.dropWhile_cons, hpa]

/-- Fuel irrelevance for the regex scanner: any fuel of at least the length
of the remaining character list yields the same match list, so the
fuel-exhaustion branch of `scanAux` is unreachable from `findallCourseCodes`
and the fuel is pure accounting. -/
theorem scanAux_fuel : ∀ (f g : Nat) (cs : List Char), cs.length ≤ f → cs.length ≤ g →
    scanAux f cs = scanAux g cs := by
  intro f
  induction f with
  | zero =>
    intro g cs hf _
    have hcs : cs = [] := List.length_eq_zero.mp (Nat.le_zero.mp hf)
    subst hcs
    cases g <;> simp [scanAux]
  | succ f ih =>
    intro g cs hf hg
    cases cs with
    | nil => cases g <;> simp [scanAux]
    | cons c rest =>
      cases g with
      | zero => exact absurd hg (by simp)
      | succ g =>
        have hrestf : rest.length ≤ f := Nat.succ_le_succ_iff.mp hf
        have hrestg : rest.length ≤ g := Nat.succ_le_succ_iff.mp hg
        have hdrop :
            (((rest.dropWhile isRegexUpper).dropWhile isPySpace).dropWhile
              isRegexDigit).length ≤ rest.length :=
          le_trans (length_dropWhile_le _ _)
            (le_trans (length_dropWhile_le _ _) (length_dropWhile_le _ _))
        simp only [scanAux]
        split
        · split
          · exact ih g rest hrestf hrestg
          · exact congrArg _ (ih g _ (le_trans hdrop hrestf) (le_trans hdrop hrestg))
        · exact ih g rest hrestf hrestg

/-- Coherence of the empty cache of a fresh `CornellTechElectiveChecker`. -/
theorem cacheOk_nil (api : Api) : CacheOk api [] := by
  intro k v h
  simp [lookupA] at h

/-- A fetch through a coherent cache returns exactly the catalog answer and
leaves the cache coherent. -/
theorem fetch_ok (api : Api) (cache : Cache) (subject course_num roster : String)
    (h : CacheOk api cache) :
    (_fetch_course_data api cache subject course_num roster).1
        = lookupA (roster, subject, course_num) api
    ∧ CacheOk api (_fetch_course_data api cache subject course_num roster).2 := by
  unfold _fetch_course_data
  cases hc : lookupA (roster, subject, course_num) cache with
  | some v => exact ⟨h _ _ hc, h⟩
  | none =>
    refine ⟨rfl, ?_⟩
    intro k v hk
    by_cases hkey : k = (roster, subject, course_num)
    · subst hkey
      simp [lookupA] at hk
      simp [hk]
    · simp only [lookupA, if_neg hkey] at hk
      exact h _ _ hk

/-- The prerequisite loop run with a coherent cache computes `List.any` of
the cache-free per-course verdicts and preserves coherence. -/
theorem loopAnyC_ok (api : Api) (f : String → Cache → Bool × Cache) (g : String → Bool)
    (hf : ∀ p c, CacheOk api c → (f p c).1 = g p ∧ CacheOk api (f p c).2) :
    ∀ (ps : List String) (c : Cache), CacheOk api c →
      (loopAnyC f ps c).1 = ps.any g ∧ CacheOk api (loopAnyC f ps c).2 := by
  intro ps
  induction ps with
  | nil => intro c hc; exact ⟨rfl, hc⟩
  | cons p rest ih =>
    intro c hc
    obtain ⟨h1, h2⟩ := hf p c hc
    rcases hfp : f p c with ⟨b, c'⟩
    rw [hfp] at h1 h2
    simp only [loopAnyC, hfp]
    cases b with
    | true =>
      refine ⟨?_, h2⟩
      simp [List.any_cons, ← h1]
    | false =>
      obtain ⟨ih1, ih2⟩ := ih c' h2
      refine ⟨?_, ih2⟩
      simp [List.any_cons, ← h1, ih1]

/-- Main cache bridge: `is_tech_elective` run with any coherent instance
cache returns the cache-free verdict `isTEF` and leaves the cache coherent.
This is the content behind batch idempotence: the cache the first batch pass
leaves behind cannot change any verdict of the second pass. -/
theorem isTEcF_pure (api : Api) (wl : List String) :
    ∀ (fuel : Nat) (course roster : String) (visited : List String)
      (depth max_depth : Int) (cache : Cache), CacheOk api cache →
      (isTEcF api wl fuel course roster visited depth max_depth cache).1
          = isTEF api wl fuel course roster visited depth max_depth
      ∧ CacheOk api (isTEcF api wl fuel course roster visited depth max_depth cache).2 := by
  intro fuel
  induction fuel with
  | zero =>
    intro course roster visited depth max_depth cache hc
    unfold isTEcF isTEF
    split_ifs
    · exact ⟨rfl, hc⟩
    · exact ⟨rfl, hc⟩
    · exact ⟨rfl, hc⟩
    · cases hp : parse_course_code course with
      | none =>
        constructor
        · simp [hp]
        · simp only [hp]
          exact hc
      | some sn =>
        obtain ⟨s, n⟩ := sn
        obtain ⟨hf1, hf2⟩ := fetch_ok api cache s n roster hc
        rcases hfc : _fetch_course_data api cache s n roster with ⟨o, cache'⟩
        rw [hfc] at hf1 hf2
        simp only [hp, hfc, ← hf1]
        cases o with
        | none => exact ⟨rfl, hf2⟩
        | some cd => exact ⟨rfl, hf2⟩
  | succ fuel ih =>
    intro course roster visited depth max_depth cache hc
    unfold isTEcF isTEF
    split_ifs
    · exact ⟨rfl, hc⟩
    · exact ⟨rfl, hc⟩
    · exact ⟨rfl, hc⟩
    · cases hp : parse_course_code course with
      | none =>
        constructor
        · simp [hp]
        · simp only [hp]
          exact hc
      | some sn =>
        obtain ⟨s, n⟩ := sn
        obtain ⟨hf1, hf2⟩ := fetch_ok api cache s n roster hc
        rcases hfc : _fetch_course_data api cache s n roster with ⟨o, cache'⟩
        rw [hfc] at hf1 hf2
        simp only [hp, hfc, ← hf1]
        cases o with
        | none => exact ⟨rfl, hf2⟩
        | some cd =>
          exact loopAnyC_ok api _ _
            (fun p c hcc => ih p roster (course :: visited) (depth + 1) max_depth c hcc)
            (_extract_prerequisites cd roster) cache' hf2

/-- The batch loop of `check_multiple_courses`, started from any coherent
cache, computes exactly the cache-free flags `pureFlags` and leaves a
coherent cache behind. -/
theorem batchFlags_pure (api : Api) (wl : List String) (roster : String) :
    ∀ (courses : List String) (cache : Cache), CacheOk api cache →
      (batchFlags api wl courses roster cache).1 = pureFlags api wl courses roster
      ∧ CacheOk api (batchFlags api wl courses roster cache).2 := by
  intro courses
  induction courses with
  | nil => intro cache hc; exact ⟨rfl, hc⟩
  | cons course rest ih =>
    intro cache hc
    obtain ⟨h1, h2⟩ :=
      isTEcF_pure api wl (fuelFor 0 5) course roster [] 0 5 cache hc
    obtain ⟨ih1, ih2⟩ := ih (is_tech_elective api wl course roster [] 0 5 cache).2 h2
    constructor
    · simp only [batchFlags, pureFlags, List.map_cons]
      refine congrArg₂ _ ?_ ?_
      · exact congrArg _ h1
      · simpa [pureFlags] using ih1
    · simpa [batchFlags] using ih2

/-- Elements surviving `takeWhile p` satisfy `p`, as an `all` equation. -/
theorem takeWhile_all {α : Type} (p : α → Bool) (l : List α) :
    (l.takeWhile p).all p = true := List.all_takeWhile

/-- Shape of every capture pair produced by the scanner: a nonempty run of
`[A-Z]` characters and a nonempty run of `\d` characters — with no length
bounds, no captured suffix letter and no slash separator, since the source
pattern is exactly `([A-Z]+)\s*(\d+)`. -/
theorem scanAux_shape : ∀ (fuel : Nat) (cs : List Char) (s n : String),
    (s, n) ∈ scanAux fuel cs →
    s.data ≠ [] ∧ s.data.all isRegexUpper ∧ n.data ≠ [] ∧ n.data.all isRegexDigit := by
  intro fuel
  induction fuel with
  | zero =>
    intro cs s n h
    simp [scanAux] at h
  | succ fuel ih =>
    intro cs s n h
    cases cs with
    | nil => simp [scanAux] at h
    | cons c rest =>
      simp only [scanAux] at h
      by_cases hc : isRegexUpper c
      · rw [if_pos hc] at h
        by_cases hd :
            ((((rest.dropWhile isRegexUpper).dropWhile isPySpace)).takeWhile
              isRegexDigit).isEmpty
        · rw [if_pos hd] at h
          exact ih rest s n h
        · rw [if_neg hd] at h
          rcases List.mem_cons.mp h with heq | hmem
          · obtain ⟨hs, hn⟩ := Prod.mk.injEq .. ▸ heq
            subst hs
            subst hn
            refine ⟨by simp, ?_, ?_, ?_⟩
            · show ((c :: rest.takeWhile isRegexUpper).all isRegexUpper) = true
              simp [hc, takeWhile_all]
            · intro hcon
              exact hd (List.isEmpty_iff.mpr hcon)
            · exact takeWhile_all _ _
          · exact ih _ s n hmem
      · rw [if_neg hc] at h
        exact ih rest s n h

/-- Membership of the (case-insensitively uppercased) whitelist makes
`is_tech_elective` answer `true` at the Python default arguments, before any
graph or catalog access: the whitelist test is the second check of the
function body, right after the depth guard. -/
theorem whitelist_member_true (api : Api) (wl : List String) (course : String)
    (cache : Cache) (h : course ∈ wl) :
    (is_tech_elective api wl course "FA25" [] 0 5 cache).1 = true := by
  unfold is_tech_elective isTEcF
  rw [if_neg (by decide), if_pos (List.mem_map_of_mem pyUpperS h)]

/-- Claim C1 (counterexample): the extraction step does NOT expand the
shared-subject shorthand `INFO/CS 2300` — the pattern `([A-Z]+)\s*(\d+)` has
no slash handling, so the `INFO` mention is lost: `("INFO", "2300")` is not
among the extracted pairs, and `"INFO 2300"` is not among the formatted
prerequisite codes. -/
theorem extract_shared_subject_not_expanded :
    ("INFO", "2300") ∉ findallCourseCodes "Prerequisite: CS 2110 or INFO/CS 2300" ∧
      "INFO 2300" ∉
        _extract_prerequisites ⟨"Prerequisite: CS 2110 or INFO/CS 2300", ""⟩ "FA25" := by
  decide

/-- Claim C1 (amended): on `"Prerequisite: CS 2110 or INFO/CS 2300"` the
extraction step returns exactly the identifiers `("CS","2110")` and
`("CS","2300")` (in scan order; `_extract_prerequisites` formats them as the
set `{"CS 2110", "CS 2300"}`): the subject of the `INFO/CS` shorthand before
the slash is dropped, not expanded. -/
theorem extract_round_trip_actual :
    findallCourseCodes "Prerequisite: CS 2110 or INFO/CS 2300"
        = [("CS", "2110"), ("CS", "2300")] ∧
      _extract_prerequisites ⟨"Prerequisite: CS 2110 or INFO/CS 2300", ""⟩ "FA25"
        = ["CS 2110", "CS 2300"] := by
  decide

/-- Claim C2 (code bug): `check_multiple_courses` computes the per-course
flags in its loop — for input `["CS 2110"]` with `"CS 2110"` whitelisted the
loop's `results` dict is `{"CS 2110": True}` (second conjunct) — but the
function body ends without a `return` statement, so the caller receives
Python `None` (first conjunct) instead of the documented dictionary mapping
each input course code to its flag. -/
theorem check_multiple_courses_returns_none :
    (check_multiple_courses [] ["CS 2110"] ["CS 2110"] "FA25" []).1 = none ∧
      (batchFlags [] ["CS 2110"] ["CS 2110"] "FA25" []).1 = [("CS 2110", true)] := by
  decide

/-- Claim C3: any course identifier that is a member of the whitelist makes
`is_tech_elective` (at its default arguments: roster `"FA25"`, fresh visited
set, depth 0, max depth 5, and any instance cache) return `true` for every
catalog whatsoever — in particular for a catalog with no entry for the
course, i.e. no edges and no retrievable course data. -/
theorem whitelisted_course_qualifies (api : Api) (wl : List String) (course : String)
    (cache : Cache) (h : course ∈ wl) :
    (is_tech_elective api wl course "FA25" [] 0 5 cache).1 = true :=
  whitelist_member_true api wl course cache h

/-- Claim C3 (witness): `"CS 2110"` is in the whitelist and qualifies against
the empty catalog. -/
theorem whitelisted_course_qualifies_witness :
    ("CS 2110" ∈ ["CS 2110", "MATH 2940"]) ∧
      (is_tech_elective [] ["CS 2110", "MATH 2940"] "CS 2110" "FA25" [] 0 5 []).1 = true :=
  ⟨by decide, whitelisted_course_qualifies [] ["CS 2110", "MATH 2940"] "CS 2110" [] (by decide)⟩

/-- Claim C4: on the prerequisite chain TQ 1000 → TQ 2000 → TQ 3000 →
TQ 4000 where only TQ 4000 is whitelisted and no other course has
prerequisites, the check on TQ 1000 with `max_depth = 2` returns `false`
(TQ 4000 sits 3 hops away, and the recursive call reaching it at depth 3 is
cut by the `depth > max_depth` guard before its whitelist test), while
`max_depth = 3` lets the depth-3 call pass the guard and returns `true`. -/
theorem depth_bound_chain :
    (is_tech_elective
        [(("FA25", "TQ", "1000"), ⟨"TQ 2000", ""⟩),
         (("FA25", "TQ", "2000"), ⟨"TQ 3000", ""⟩),
         (("FA25", "TQ", "3000"), ⟨"TQ 4000", ""⟩)]
        ["TQ 4000"] "TQ 1000" "FA25" [] 0 2 []).1 = false ∧
      (is_tech_elective
        [(("FA25", "TQ", "1000"), ⟨"TQ 2000", ""⟩),
         (("FA25", "TQ", "2000"), ⟨"TQ 3000", ""⟩),
         (("FA25", "TQ", "3000"), ⟨"TQ 4000", ""⟩)]
        ["TQ 4000"] "TQ 1000" "FA25" [] 0 3 []).1 = true := by
  decide

/-- Claim C5: on the cyclic catalog TQ 1000 ↔ TQ 2000 with a whitelist
containing neither course (nor anything they reach), the check on TQ 1000
returns `false` — at the default `max_depth = 5` and equally at
`max_depth = 100`, showing the cycle is cut by the visited-set guard
(`course in visited`) at recursion depth 2, not by the depth bound; the
embedding is a total structurally-recursive function, so the computation of
this value is finite by construction and no error is surfaced. -/
theorem cycle_query_terminates_false :
    (is_tech_elective
        [(("FA25", "TQ", "1000"), ⟨"TQ 2000", ""⟩),
         (("FA25", "TQ", "2000"), ⟨"TQ 1000", ""⟩)]
        ["ZZ 9999"] "TQ 1000" "FA25" [] 0 5 []).1 = false ∧
      (is_tech_elective
        [(("FA25", "TQ", "1000"), ⟨"TQ 2000", ""⟩),
         (("FA25", "TQ", "2000"), ⟨"TQ 1000", ""⟩)]
        ["ZZ 9999"] "TQ 1000" "FA25" [] 0 100 []).1 = false := by
  decide

/-- Claim C6 (counterexample): the entry `"@@@"` does not match the
course-identifier grammar (`_parse_course_code` rejects it), yet
`__init__` accepts it silently — the constructor stores it verbatim, no
validation error is reported, and the malformed entry is even consulted: a
course equal to it is classified as qualifying. Whitelist loading never
aborts. -/
theorem malformed_whitelist_entry_accepted :
    parse_course_code "@@@" = none ∧
      initChecker ["@@@"] = ["@@@"] ∧
      (is_tech_elective [] (initChecker ["@@@"]) "@@@" "FA25" [] 0 5 []).1 = true := by
  decide

/-- Claim C6 (amended): whitelist loading performs no validation at all:
`__init__` stores any supplied list of strings verbatim and cannot fail, so a
malformed entry is silently accepted rather than reported — and, being in the
stored whitelist, it even makes the qualification check answer `true` for an
identically-spelled course. -/
theorem whitelist_loading_never_validates (entries : List String) (e : String)
    (api : Api) (cache : Cache) (h : e ∈ entries) :
    initChecker entries = entries ∧
      (is_tech_elective api (initChecker entries) e "FA25" [] 0 5 cache).1 = true :=
  ⟨rfl, whitelist_member_true api entries e cache h⟩

/-- Claim C6 amended (witness): the malformed entry `"@@@"`. -/
theorem whitelist_loading_never_validates_witness :
    ("@@@" ∈ ["@@@"]) ∧
      (initChecker ["@@@"] = ["@@@"] ∧
        (is_tech_elective [] (initChecker ["@@@"]) "@@@" "FA25" [] 0 5 []).1 = true) :=
  ⟨by decide, whitelist_loading_never_validates ["@@@"] "@@@" [] [] (by decide)⟩

/-- Claim C7: a course identifier that is not in the whitelist (after the
case-insensitive uppercasing both sides receive) and has no catalog entry
under its parsed `(subject, number)` — including one whose spelling does not
even parse — makes `is_tech_elective` at the default arguments return
`false`; the embedding is a total function, every branch of the source
resolving to a boolean rather than an exception. -/
theorem unknown_course_false (api : Api) (wl : List String) (course : String)
    (hwl : pyUpperS course ∉ wl.map pyUpperS)
    (hapi : ∀ s n, parse_course_code course = some (s, n) →
      lookupA ("FA25", s, n) api = none) :
    (is_tech_elective api wl course "FA25" [] 0 5 []).1 = false := by
  unfold is_tech_elective isTEcF
  rw [if_neg (by decide), if_neg hwl, if_neg (List.not_mem_nil course)]
  cases hp : parse_course_code course with
  | none => simp [hp]
  | some sn =>
    obtain ⟨s, n⟩ := sn
    have hnone := hapi s n hp
    simp [hp, _fetch_course_data, lookupA, hnone]

/-- Claim C7 (witness): `("XX", "9999")` appears in no catalog key and no
whitelist, and the check returns `false`. -/
theorem unknown_course_false_witness :
    (pyUpperS "XX 9999" ∉ (["CS 2110"].map pyUpperS)) ∧
      (is_tech_elective [] ["CS 2110"] "XX 9999" "FA25" [] 0 5 []).1 = false :=
  ⟨by decide, unknown_course_false [] ["CS 2110"] "XX 9999" (by decide) (fun s n _ => rfl)⟩

/-- Claim C8 (counterexample): the extractor is not bounded by the claimed
grammar — a 1-letter subject with a 2-digit number IS extracted from
`"A 12"`; a slash is NOT accepted as a subject–number separator
(`"CS/2110"` yields nothing); and a trailing suffix letter is NOT captured
(`"CS 4710B"` yields `("CS","4710")`, dropping the `B`). -/
theorem extractor_grammar_counterexample :
    (("A", "12") ∈ findallCourseCodes "A 12") ∧
      findallCourseCodes "CS/2110" = [] ∧
      findallCourseCodes "CS 4710B" = [("CS", "4710")] := by
  decide

/-- Claim C8 (amended): the extractor matches exactly the pattern
`([A-Z]+)\s*(\d+)` on the uppercased text: every extracted pair is a
nonempty run of uppercase letters paired with a nonempty run of digits,
with zero or more whitespace characters (never a slash) in between and no
suffix letter captured; there are no 2–5 letter or 3–4 digit bounds, so
1-letter subjects and 1–2 digit numbers are extracted too. -/
theorem extractor_matches_letter_digit_runs (text : String) (s n : String)
    (h : (s, n) ∈ findallCourseCodes text) :
    s.data ≠ [] ∧ s.data.all isRegexUpper ∧ n.data ≠ [] ∧ n.data.all isRegexDigit :=
  scanAux_shape text.data.length (pyUpperChars text.data) s n h

/-- Claim C8 amended (witness): the pair extracted from `"A 12"`. -/
theorem extractor_matches_letter_digit_runs_witness :
    (("A", "12") ∈ findallCourseCodes "A 12") ∧
      ("A".data ≠ [] ∧ "A".data.all isRegexUpper ∧
        "12".data ≠ [] ∧ "12".data.all isRegexDigit) :=
  ⟨by decide, extractor_matches_letter_digit_runs "A 12" "A" "12" (by decide)⟩

/-- Claim C9: batch recomputation is idempotent. A second batch run over the
same course list, whitelist, roster and catalog — starting from the instance
cache the first run left behind, the only state that persists between runs —
produces exactly the per-course flag list of the first run (so in particular
a flag that was `true` after the first run is still `true` after the
second): by `batchFlags_pure`, every run from a coherent cache computes the
cache-free flags `pureFlags` and leaves the cache coherent. -/
theorem batch_recheck_idempotent (api : Api) (wl : List String)
    (courses : List String) (roster : String) :
    (batchFlags api wl courses roster (batchFlags api wl courses roster []).2).1
      = (batchFlags api wl courses roster []).1 := by
  obtain ⟨h1, hc1⟩ := batchFlags_pure api wl roster courses [] (cacheOk_nil api)
  obtain ⟨h2, _hc2⟩ :=
    batchFlags_pure api wl roster courses (batchFlags api wl courses roster []).2 hc1
  rw [h1, h2]

/-- Claim C10: the depth guard `depth > max_depth` is the first statement of
`is_tech_elective` after the visited-set default, evaluated before the
whitelist membership test: whenever it fires the call returns `false` (and
leaves the cache untouched) for every course — whitelisted ones included —
every roster, visited set and catalog. -/
theorem depth_guard_before_whitelist (api : Api) (wl : List String)
    (course roster : String) (visited : List String) (depth max_depth : Int)
    (cache : Cache) (h : depth > max_depth) :
    is_tech_elective api wl course roster visited depth max_depth cache = (false, cache) := by
  unfold is_tech_elective isTEcF
  rw [if_pos h]

/-- Claim C10 (witness): a top-level call with `max_depth = -1` returns
`false` even though the course is in the whitelist. -/
theorem depth_guard_before_whitelist_witness :
    ((0 : Int) > -1) ∧
      is_tech_elective [] ["CS 2110"] "CS 2110" "FA25" [] 0 (-1) [] = (false, []) :=
  ⟨by decide,
    depth_guard_before_whitelist [] ["CS 2110"] "CS 2110" "FA25" [] 0 (-1) [] (by decide)⟩
